import Mathlib

/-!
Shallow embedding of `src/app.py` (DeepSeek WhatsApp bot).

JSON values are modelled by an inductive `Json`; Python dictionary access,
indexing and truthiness are modelled faithfully, with raised exceptions
represented by `Except.error ()`.  The results of outbound HTTP calls
(`requests.post`) are modelled by `HttpResult`: either a transport
exception or a response carrying a status code and an optional parsed
JSON body (`none` meaning `response.json()` raises).  Environment
variables are `Option String` fields of a `Ctx` record, with Python
falsiness of `None` and of the empty string preserved.
-/

inductive Json where
  | null : Json
  | bool (b : Bool) : Json
  | num (n : Int) : Json
  | str (s : String) : Json
  | arr (elems : List Json) : Json
  | obj (fields : List (String × Json)) : Json

/-- Key lookup in a Python dict modelled as an association list. -/
def lookupJ : List (String × Json) → String → Option Json
  | [], _ => none
  | (k, v) :: rest, key => if k = key then some v else lookupJ rest key

/-- Python truthiness of a JSON value, as used by `if entry:` etc. -/
def truthyJson : Json → Bool
  | .null => false
  | .bool b => b
  | .num n => n != 0
  | .str s => !s.isEmpty
  | .arr l => !l.isEmpty
  | .obj fs => !fs.isEmpty

/-- Python `x.get(key, default)`: raises `AttributeError` unless `x` is a
dict; a raised exception is `Except.error ()`. -/
def pyGet (j : Json) (key : String) (dflt : Json) : Except Unit Json :=
  match j with
  | .obj fs => .ok ((lookupJ fs key).getD dflt)
  | _ => .error ()

/-- Python dict subscript `x[key]` with a string key: `KeyError` when the
key is absent, `TypeError` when `x` is not a dict. -/
def pySub (j : Json) (key : String) : Except Unit Json :=
  match j with
  | .obj fs =>
    match lookupJ fs key with
    | some v => .ok v
    | none => .error ()
  | _ => .error ()

/-- Python `x[0]`: the head of a non-empty list, the first character of a
non-empty string (as a one-character string), and an exception
(`IndexError`, `KeyError` or `TypeError`) in every other case — in
particular on a dict, since all modelled keys are strings. -/
def pyIndex0 : Json → Except Unit Json
  | .arr (x :: _) => .ok x
  | .str s => if s.isEmpty then .error () else .ok (.str (s.take 1))
  | _ => .error ()

/-- The environment-derived configuration read at module load:
`os.getenv` yields `none` for an unset variable. -/
structure Ctx where
  whatsappToken : Option String
  whatsappPhoneId : Option String
  deepseekApiKey : Option String
  verifyTokenEnv : Option String

/-- Python truthiness of an `os.getenv` result: `None` and the empty
string are falsy (`if not WHATSAPP_TOKEN: ...`). -/
def truthy : Option String → Bool
  | none => false
  | some s => !s.isEmpty

/-- `VERIFY_TOKEN = os.getenv("VERIFY_TOKEN", "deepseek-bot")`: the
default applies only when the variable is unset. -/
def VERIFY_TOKEN (c : Ctx) : String := c.verifyTokenEnv.getD "deepseek-bot"

/-- Outcome of one outbound `requests.post`: a transport exception, or a
response with its status code and parsed JSON body (`none` when the body
is not valid JSON, so `response.json()` raises). -/
inductive HttpResult where
  | exn : HttpResult
  | resp (status : Nat) (body : Option Json) : HttpResult

def notConfiguredStr : String := "DeepSeek API key not configured!"

def troubleStr : String :=
  "Sorry, I\x27m having trouble processing your request right now."

def errorStr : String :=
  "Sorry, I encountered an error while processing your message."

/-- `response.json()["choices"][0]["message"]["content"]` on a parsed
body `b` (line 75 of `app.py`); any failure is a raised exception. -/
def extractContent (b : Json) : Except Unit Json :=
  (((pySub b "choices").bind pyIndex0).bind (fun m => pySub m "message")).bind
    (fun m => pySub m "content")

/-- `get_deepseek_reply` (lines 55-81).  The second component records
whether a network call was made.  The returned value is whatever Python
object the extraction produced, hence `Json`. -/
def get_deepseek_reply (c : Ctx) (outcome : HttpResult) (_user_message : Json) :
    Json × Bool :=
  if truthy c.deepseekApiKey then
    match outcome with
    | .exn => (.str errorStr, true)
    | .resp status body =>
      if status = 200 then
        match body with
        | none => (.str errorStr, true)
        | some b =>
          match extractContent b with
          | .ok v => (v, true)
          | .error _ => (.str errorStr, true)
      else (.str troubleStr, true)
  else (.str notConfiguredStr, false)

/-- `send_whatsapp_message` (lines 25-53).  Returns (success flag,
whether a network call was made). -/
def send_whatsapp_message (c : Ctx) (outcome : HttpResult) (to_ message : Json) :
    Bool × Bool :=
  if truthy c.whatsappToken && truthy c.whatsappPhoneId then
    match outcome with
    | .exn => (false, true)
    | .resp status _ => ((status == 200), true)
  else (false, false)

/-- `message_type == "text"` where `message_type` is an arbitrary Python
value: true exactly on the string `"text"`. -/
def isTextType : Json → Bool
  | .str s => s == "text"
  | _ => false

/-- One invocation of a collaborator from inside the webhook handler. -/
inductive Call where
  | completion (prompt : Json) : Call
  | send (to_ : Json) (body : Json) : Call

/-- The body of the `try` block of the POST branch of `webhook`
(lines 104-130), parameterised by the outcomes of the completion call
(`co`) and the send call (`so`).  Returns the list of collaborator
invocations; a raised exception is `Except.error ()` (both call sites are
after every fallible step, so no invocation precedes an exception). -/
def processPayload (c : Ctx) (co so : HttpResult) (data : Json) :
    Except Unit (List Call) :=
  match pyGet data "entry" (.arr []) with
  | .error e => .error e
  | .ok entry =>
    if truthyJson entry then
      match pyIndex0 entry with
      | .error e => .error e
      | .ok e0 =>
        match pyGet e0 "changes" (.arr []) with
        | .error e => .error e
        | .ok changes =>
          if truthyJson changes then
            match pyIndex0 changes with
            | .error e => .error e
            | .ok c0 =>
              match pyGet c0 "value" (.obj []) with
              | .error e => .error e
              | .ok value =>
                match pyGet value "messages" (.arr []) with
                | .error e => .error e
                | .ok messages =>
                  if truthyJson messages then
                    match pyIndex0 messages with
                    | .error e => .error e
                    | .ok message =>
                      match pyGet message "from" .null with
                      | .error e => .error e
                      | .ok from_number =>
                        match pyGet message "type" .null with
                        | .error e => .error e
                        | .ok message_type =>
                          if isTextType message_type then
                            match pyGet message "text" (.obj []) with
                            | .error e => .error e
                            | .ok textObj =>
                              match pyGet textObj "body" (.str "") with
                              | .error e => .error e
                              | .ok user_text =>
                                let ai := (get_deepseek_reply c co user_text).1
                                let _ := send_whatsapp_message c so from_number ai
                                .ok [.completion user_text,
                                     .send from_number ai]
                          else .ok []
                  else .ok []
          else .ok []
    else .ok []

/-- The GET branch of `webhook` (lines 85-98).  Query parameters are
`Option String` (`request.args.get` yields `None` when absent).
Returning `(None, 200)` when the challenge is absent is not a valid
Flask response and raises, modelled by `Except.error ()`. -/
def webhook_get (c : Ctx) (mode token challenge : Option String) :
    Except Unit (String × Nat) :=
  if mode = some "subscribe" ∧ token = some (VERIFY_TOKEN c) then
    match challenge with
    | some ch => .ok (ch, 200)
    | none => .error ()
  else .ok ("Verification failed", 403)

/-- The POST branch of `webhook` (lines 100-134).  `body = none` models a
request body that is not well-formed JSON: `request.get_json()` (line
101) raises *outside* the `try` block, so the exception escapes the
handler.  For a parsed body the `try` swallows every exception and the
handler answers `("OK", 200)`. -/
def webhook_post (c : Ctx) (co so : HttpResult) (body : Option Json) :
    Except Unit ((String × Nat) × List Call) :=
  match body with
  | none => .error ()
  | some data =>
    match processPayload c co so data with
    | .ok calls => .ok (("OK", 200), calls)
    | .error _ => .ok (("OK", 200), [])

/-- `check_configuration` (lines 150-167): the success flag together with
the reported list of missing variable names, in source order. -/
def check_configuration (c : Ctx) : Bool × List String :=
  let missing :=
    (if truthy c.whatsappToken then [] else ["WHATSAPP_TOKEN"]) ++
    (if truthy c.whatsappPhoneId then [] else ["WHATSAPP_PHONE_ID"]) ++
    (if truthy c.deepseekApiKey then [] else ["DEEPSEEK_API_KEY"])
  (missing.isEmpty, missing)

/-- The message, if any, at the fixed path
`entry[0].changes[0].value.messages[0]` of a payload, with Python
defaults (`entry`/`changes`/`messages` default to `[]`, `value` to
an empty dict) applied at each level. -/
def msgAt (data : Json) : Option Json :=
  match data with
  | .obj fs =>
    match (lookupJ fs "entry").getD (.arr []) with
    | .arr (e0 :: _) =>
      match e0 with
      | .obj efs =>
        match (lookupJ efs "changes").getD (.arr []) with
        | .arr (c0 :: _) =>
          match c0 with
          | .obj cfs =>
            match (lookupJ cfs "value").getD (.obj []) with
            | .obj vfs =>
              match (lookupJ vfs "messages").getD (.arr []) with
              | .arr (m0 :: _) => some m0
              | _ => none
            | _ => none
          | _ => none
        | _ => none
      | _ => none
    | _ => none
  | _ => none

/-- The `"type"` field of a message object, when the message is a dict
carrying one. -/
def jTypeOf : Json → Option Json
  | .obj fs => lookupJ fs "type"
  | _ => none

/-- A webhook delivery payload wrapping one message at the fixed path. -/
def textMsgPayload (m : Json) : Json :=
  let value : Json := .obj [("messages", .arr [m])]
  let change : Json := .obj [("value", value)]
  let entry : Json := .obj [("changes", .arr [change])]
  .obj [("entry", .arr [entry])]

/-- The payload of the spec's worked example: a text message with body
`"Hello"` from sender `"1555000111"`. -/
def helloPayload : Json :=
  textMsgPayload (.obj [("from", .str "1555000111"), ("type", .str "text"),
    ("text", .obj [("body", .str "Hello")])])

/-- A completion-API 200 body of the documented shape, carrying `v` as
the first choice's message content. -/
def goodBody (v : Json) : Json :=
  .obj [("choices", .arr [.obj [("message", .obj [("content", v)])]])]

/-- A fully configured environment. -/
def ctxAll : Ctx := ⟨some "wa-token", some "wa-phone", some "ds-key", none⟩

/-- A completely unconfigured environment. -/
def ctxNone : Ctx := ⟨none, none, none, none⟩

/-! ## Helper lemmas -/

theorem pyGet_ok {j : Json} {key : String} {d v : Json}
    (h : pyGet j key d = .ok v) :
    ∃ fs, j = .obj fs ∧ v = (lookupJ fs key).getD d := by
  cases j <;> simp [pyGet] at h
  case obj fs => exact ⟨fs, rfl, h.symm⟩

theorem pyIndex0_ok_obj {e : Json} {fs : List (String × Json)}
    (h : pyIndex0 e = .ok (.obj fs)) : ∃ rest, e = .arr (.obj fs :: rest) := by
  cases e with
  | arr l =>
    cases l with
    | nil => simp [pyIndex0] at h
    | cons x xs =>
      simp [pyIndex0] at h
      exact ⟨xs, by rw [h]⟩
  | str s =>
    simp only [pyIndex0] at h
    split at h <;> simp at h
  | null => simp [pyIndex0] at h
  | bool b => simp [pyIndex0] at h
  | num n => simp [pyIndex0] at h
  | obj fs => simp [pyIndex0] at h

theorem isTextType_true {t : Json} (h : isTextType t = true) : t = .str "text" := by
  cases t <;> simp [isTextType] at h
  case str s => rw [h]

/-! ## Claim theorems -/

/-- C2: for every GET verification request with all three query
parameters present, the response is the challenge with status 200 when
`mode = "subscribe"` and the token matches the configured verify token,
and `("Verification failed", 403)` otherwise. -/
theorem c2_get_verification (c : Ctx) (mode token challenge : String) :
    (mode = "subscribe" → token = VERIFY_TOKEN c →
      webhook_get c (some mode) (some token) (some challenge) =
        .ok (challenge, 200)) ∧
    (¬(mode = "subscribe" ∧ token = VERIFY_TOKEN c) →
      webhook_get c (some mode) (some token) (some challenge) =
        .ok ("Verification failed", 403)) := by
  constructor
  · intro hm ht
    simp [webhook_get, hm, ht]
  · intro h
    rw [webhook_get, if_neg]
    intro hc
    exact h ⟨Option.some_injective _ hc.1, Option.some_injective _ hc.2⟩

theorem c2_witness :
    webhook_get ctxNone (some "subscribe") (some "deepseek-bot") (some "chal-42") =
      .ok ("chal-42", 200) ∧
    webhook_get ctxNone (some "subscribe") (some "wrong") (some "chal-42") =
      .ok ("Verification failed", 403) :=
  ⟨(c2_get_verification ctxNone "subscribe" "deepseek-bot" "chal-42").1 rfl rfl,
   (c2_get_verification ctxNone "subscribe" "wrong" "chal-42").2
     (by intro h; exact absurd h.2 (by decide))⟩

/-- C7: when the API key is not configured, `get_deepseek_reply` returns
the fixed "not configured" string, whatever the prompt and whatever the
upstream would have answered, and makes no network call (second
component `false`). -/
theorem c7_no_api_key (c : Ctx) (out : HttpResult) (msg : Json)
    (hk : truthy c.deepseekApiKey = false) :
    get_deepseek_reply c out msg = (.str notConfiguredStr, false) := by
  simp [get_deepseek_reply, hk]

theorem c7_witness :
    get_deepseek_reply ctxNone .exn (.str "Hello") =
      (.str notConfiguredStr, false) :=
  c7_no_api_key ctxNone .exn (.str "Hello") rfl

/-- C3: with the API key configured, `get_deepseek_reply` returns the
first choice's message content on a 200 response carrying it, the fixed
"trouble" fallback on any non-200 status, and the fixed "error" fallback
on a transport exception; in every case it returns (never raises). -/
theorem c3_completion_client_outcomes (c : Ctx) (out : HttpResult) (msg : Json)
    (hk : truthy c.deepseekApiKey = true) :
    (out = .exn → get_deepseek_reply c out msg = (.str errorStr, true)) ∧
    (∀ s b, out = .resp s b → s ≠ 200 →
      get_deepseek_reply c out msg = (.str troubleStr, true)) ∧
    (∀ b v, out = .resp 200 (some b) → extractContent b = .ok v →
      get_deepseek_reply c out msg = (v, true)) := by
  refine ⟨?_, ?_, ?_⟩
  · intro h; subst h; simp [get_deepseek_reply, hk]
  · intro s b h hs; subst h; simp [get_deepseek_reply, hk, hs]
  · intro b v h he; subst h; simp [get_deepseek_reply, hk, he]

theorem c3_witness :
    get_deepseek_reply ctxAll (.resp 200 (some (goodBody (.str "hi there"))))
        (.str "Hello") = (.str "hi there", true) :=
  (c3_completion_client_outcomes ctxAll
      (.resp 200 (some (goodBody (.str "hi there")))) (.str "Hello") rfl).2.2
    (goodBody (.str "hi there")) (.str "hi there") rfl rfl

/-- C5: `send_whatsapp_message` returns `true` exactly when the send
POST answered HTTP 200 (given configured credentials), `false` on any
other status or transport exception, and short-circuits to `false`
without a network call when either credential is falsy. -/
theorem c5_send_result (c : Ctx) (out : HttpResult) (to_ msg : Json) :
    ((truthy c.whatsappToken = true ∧ truthy c.whatsappPhoneId = true) →
      ((send_whatsapp_message c out to_ msg).1 = true ↔
        ∃ b, out = .resp 200 b)) ∧
    ((truthy c.whatsappToken = false ∨ truthy c.whatsappPhoneId = false) →
      send_whatsapp_message c out to_ msg = (false, false)) := by
  constructor
  · rintro ⟨h1, h2⟩
    cases out with
    | exn => simp [send_whatsapp_message, h1, h2]
    | resp s b =>
      simp only [send_whatsapp_message, h1, h2, Bool.and_self, if_true]
      constructor
      · intro hs
        have hs2 : s = 200 := by simpa using hs
        exact ⟨b, by rw [hs2]⟩
      · rintro ⟨b', hb'⟩
        cases hb'
        simp
  · intro h
    rcases h with h | h <;> simp [send_whatsapp_message, h]

theorem c5_witness :
    (send_whatsapp_message ctxAll (.resp 200 none) (.str "1555000111")
        (.str "hi")).1 = true ∧
    send_whatsapp_message ctxNone (.resp 200 none) (.str "1555000111")
        (.str "hi") = (false, false) :=
  ⟨((c5_send_result ctxAll (.resp 200 none) (.str "1555000111")
      (.str "hi")).1 ⟨rfl, rfl⟩).mpr ⟨none, rfl⟩,
   (c5_send_result ctxNone (.resp 200 none) (.str "1555000111")
      (.str "hi")).2 (Or.inl rfl)⟩

/-- C8: the startup configuration check succeeds exactly when all three
required variables are set (truthy), and the reported list of missing
variables contains exactly the names of the falsy ones. -/
theorem c8_check_configuration (c : Ctx) :
    ((check_configuration c).1 = true ↔
      (truthy c.whatsappToken = true ∧ truthy c.whatsappPhoneId = true ∧
        truthy c.deepseekApiKey = true)) ∧
    (∀ n : String, n ∈ (check_configuration c).2 ↔
      ((n = "WHATSAPP_TOKEN" ∧ truthy c.whatsappToken = false) ∨
       (n = "WHATSAPP_PHONE_ID" ∧ truthy c.whatsappPhoneId = false) ∨
       (n = "DEEPSEEK_API_KEY" ∧ truthy c.deepseekApiKey = false))) := by
  cases h1 : truthy c.whatsappToken <;>
    cases h2 : truthy c.whatsappPhoneId <;>
      cases h3 : truthy c.deepseekApiKey <;>
        simp [check_configuration, h1, h2, h3]

theorem c8_witness :
    "WHATSAPP_TOKEN" ∈ (check_configuration ctxNone).2 ∧
    (check_configuration ctxAll).1 = true :=
  ⟨((c8_check_configuration ctxNone).2 "WHATSAPP_TOKEN").mpr
      (Or.inl ⟨rfl, rfl⟩),
   (c8_check_configuration ctxAll).1.mpr ⟨rfl, rfl, rfl⟩⟩

/-- C1 (amended): for every POST whose body parses as JSON — of any
shape, including shapes whose extraction raises inside the `try` — the
handler responds with status 200 and body `"OK"`.  (A body that is not
well-formed JSON raises in `request.get_json()` *before* the `try` block
and the handler does not produce the 200/"OK" acknowledgement; see the
counterexample.) -/
theorem c1_post_json_body_always_ok (c : Ctx) (co so : HttpResult) (data : Json) :
    ∃ calls, webhook_post c co so (some data) = .ok (("OK", 200), calls) := by
  cases h : processPayload c co so data with
  | ok calls => exact ⟨calls, by simp [webhook_post, h]⟩
  | error e => exact ⟨[], by simp [webhook_post, h]⟩

/-- C1 counterexample: a request body that is not well-formed JSON makes
`request.get_json()` (line 101, outside the `try`) raise, so the
exception escapes the handler instead of a 200/"OK" response. -/
theorem c1_counterexample_nonjson_body :
    webhook_post ctxAll .exn .exn none = .error () := rfl

/-- C4 (amended): for the "Hello" payload the handler invokes the
Completion Client with prompt `"Hello"` and then, whatever the
completion outcome, invokes the Outbound Sender with recipient
`"1555000111"` and the completion result as body; the body is a
non-empty string for every failure outcome (transport exception or
non-200 status) — but on a 200 success it is the returned content
verbatim, which may be empty (see the counterexample). -/
theorem c4_hello_flow (c : Ctx) (co so : HttpResult) :
    (webhook_post c co so (some helloPayload) =
      .ok (("OK", 200), [.completion (.str "Hello"),
        .send (.str "1555000111") (get_deepseek_reply c co (.str "Hello")).1])) ∧
    ((co = .exn ∨ ∃ s b, co = .resp s b ∧ s ≠ 200) →
      ∃ t, (get_deepseek_reply c co (.str "Hello")).1 = .str t ∧ t ≠ "") := by
  constructor
  · rfl
  · intro h
    by_cases hk : truthy c.deepseekApiKey
    · rcases h with h | ⟨s, b, h, hs⟩
      · subst h
        exact ⟨errorStr, by simp [get_deepseek_reply, hk], by decide⟩
      · subst h
        exact ⟨troubleStr, by simp [get_deepseek_reply, hk, hs], by decide⟩
    · rw [Bool.not_eq_true] at hk
      exact ⟨notConfiguredStr, by simp [get_deepseek_reply, hk], by decide⟩

theorem c4_witness :
    webhook_post ctxAll .exn .exn (some helloPayload) =
      .ok (("OK", 200), [.completion (.str "Hello"),
        .send (.str "1555000111") (get_deepseek_reply ctxAll .exn (.str "Hello")).1]) ∧
    (get_deepseek_reply ctxAll .exn (.str "Hello")).1 ≠ .str "" := by
  refine ⟨(c4_hello_flow ctxAll .exn .exn).1, ?_⟩
  rcases (c4_hello_flow ctxAll .exn .exn).2 (Or.inl rfl) with ⟨t, ht, hne⟩
  rw [ht]
  intro hc
  injection hc with h
  exact hne h

/-- C4 counterexample: when the completion endpoint answers 200 with
content `""`, the handler invokes the Outbound Sender with the *empty*
body string, falsifying the claim's "non-empty body string". -/
theorem c4_counterexample_empty_content :
    webhook_post ctxAll (.resp 200 (some (goodBody (.str "")))) .exn
        (some helloPayload) =
      .ok (("OK", 200),
        [.completion (.str "Hello"), .send (.str "1555000111") (.str "")]) := rfl

/-- C10: a payload whose first message has type `"text"` but whose
`text` object lacks a `body` field — or lacks the `text` object
entirely — still reaches the Completion Client, with the empty string as
prompt (the `.get` defaults at line 119 apply). -/
theorem c10_missing_body_empty_prompt (c : Ctx) (co so : HttpResult)
    (fromv : Json) (tfs : List (String × Json))
    (hb : lookupJ tfs "body" = none) :
    (webhook_post c co so (some (textMsgPayload (.obj
        [("from", fromv), ("type", .str "text"), ("text", .obj tfs)]))) =
      .ok (("OK", 200), [.completion (.str ""),
        .send fromv (get_deepseek_reply c co (.str "")).1])) ∧
    (webhook_post c co so (some (textMsgPayload (.obj
        [("from", fromv), ("type", .str "text")]))) =
      .ok (("OK", 200), [.completion (.str ""),
        .send fromv (get_deepseek_reply c co (.str "")).1])) := by
  constructor
  · have h1 : webhook_post c co so (some (textMsgPayload (.obj
        [("from", fromv), ("type", .str "text"), ("text", .obj tfs)]))) =
      .ok (("OK", 200),
        [.completion ((lookupJ tfs "body").getD (.str "")),
         .send fromv
           (get_deepseek_reply c co ((lookupJ tfs "body").getD (.str ""))).1]) :=
      rfl
    rw [h1, hb]
    rfl
  · rfl

theorem c10_witness :
    webhook_post ctxAll .exn .exn (some (textMsgPayload (.obj
        [("from", .str "7"), ("type", .str "text"), ("text", .obj [])]))) =
      .ok (("OK", 200), [.completion (.str ""),
        .send (.str "7") (get_deepseek_reply ctxAll .exn (.str "")).1]) :=
  (c10_missing_body_empty_prompt ctxAll .exn .exn (.str "7") [] rfl).1

/-- C9 (amended): with the API key configured, `get_deepseek_reply` is
total over every modelled upstream outcome — it always returns (never
raises), and its result is the error fallback string, the trouble
fallback string, or the value extracted from a 200 body; in particular a
200 response whose body lacks the choices/message/content structure (so
the extraction raises) yields the error fallback string.  The result is
*not* always a string: a well-formed 200 body whose content is a
non-string JSON value is returned verbatim (see the counterexample). -/
theorem c9_total_with_fallbacks (c : Ctx) (out : HttpResult) (msg : Json)
    (hk : truthy c.deepseekApiKey = true) :
    (out = .resp 200 none → get_deepseek_reply c out msg = (.str errorStr, true)) ∧
    (∀ b, out = .resp 200 (some b) → extractContent b = .error () →
      get_deepseek_reply c out msg = (.str errorStr, true)) ∧
    ((get_deepseek_reply c out msg).1 = .str errorStr ∨
     (get_deepseek_reply c out msg).1 = .str troubleStr ∨
     (∃ b v, out = .resp 200 (some b) ∧ extractContent b = .ok v ∧
        (get_deepseek_reply c out msg).1 = v)) := by
  refine ⟨?_, ?_, ?_⟩
  · intro h; subst h; simp [get_deepseek_reply, hk]
  · intro b h he; subst h; simp [get_deepseek_reply, hk, he]
  · cases out with
    | exn => left; simp [get_deepseek_reply, hk]
    | resp s b =>
      by_cases hs : s = 200
      · subst hs
        cases b with
        | none => left; simp [get_deepseek_reply, hk]
        | some bb =>
          cases he : extractContent bb with
          | error e => left; simp [get_deepseek_reply, hk, he]
          | ok v =>
            right; right
            exact ⟨bb, v, rfl, he, by simp [get_deepseek_reply, hk, he]⟩
      · right; left; simp [get_deepseek_reply, hk, hs]

theorem c9_witness :
    get_deepseek_reply ctxAll (.resp 200 (some (.obj []))) (.str "Hello") =
      (.str errorStr, true) :=
  (c9_total_with_fallbacks ctxAll (.resp 200 (some (.obj [])))
      (.str "Hello") rfl).2.1 (.obj []) rfl rfl

/-- C9 counterexample: a 200 response whose (well-formed) body carries
the non-string content `5` is returned verbatim — the Completion Client
does not always return a string. -/
theorem c9_counterexample_nonstring_content :
    get_deepseek_reply ctxAll (.resp 200 (some (goodBody (.num 5))))
        (.str "Hello") = (.num 5, true) := rfl

/-- If the extraction in the POST branch reaches neither call site —
because the fixed path `entry[0].changes[0].value.messages[0]` yields no
message, or the message's type is not the string `"text"` — then the
`try` body returns the empty invocation list or raises. -/
theorem processPayload_no_text (c : Ctx) (co so : HttpResult) (data : Json)
    (h : msgAt data = none ∨
      ∀ m, msgAt data = some m → jTypeOf m ≠ some (.str "text")) :
    processPayload c co so data = .ok [] ∨
      processPayload c co so data = .error () := by
  simp only [processPayload]
  cases hE : pyGet data "entry" (.arr []) with
  | error e => exact Or.inr rfl
  | ok entry =>
  dsimp only
  cases hT : truthyJson entry with
  | false => rw [if_neg (by simp)]; exact Or.inl rfl
  | true =>
  rw [if_pos rfl]
  cases hI : pyIndex0 entry with
  | error e => exact Or.inr rfl
  | ok e0 =>
  dsimp only
  cases hC : pyGet e0 "changes" (.arr []) with
  | error e => exact Or.inr rfl
  | ok changes =>
  dsimp only
  cases hTC : truthyJson changes with
  | false => rw [if_neg (by simp)]; exact Or.inl rfl
  | true =>
  rw [if_pos rfl]
  cases hIC : pyIndex0 changes with
  | error e => exact Or.inr rfl
  | ok c0 =>
  dsimp only
  cases hV : pyGet c0 "value" (.obj []) with
  | error e => exact Or.inr rfl
  | ok value =>
  dsimp only
  cases hM : pyGet value "messages" (.arr []) with
  | error e => exact Or.inr rfl
  | ok messages =>
  dsimp only
  cases hTM : truthyJson messages with
  | false => rw [if_neg (by simp)]; exact Or.inl rfl
  | true =>
  rw [if_pos rfl]
  cases hIM : pyIndex0 messages with
  | error e => exact Or.inr rfl
  | ok message =>
  dsimp only
  cases hF : pyGet message "from" .null with
  | error e => exact Or.inr rfl
  | ok from_number =>
  dsimp only
  cases hTy : pyGet message "type" .null with
  | error e => exact Or.inr rfl
  | ok message_type =>
  dsimp only
  cases hTx : isTextType message_type with
  | false => rw [if_neg (by simp)]; exact Or.inl rfl
  | true =>
  exfalso
  obtain ⟨fs, hdata, hentry⟩ := pyGet_ok hE
  obtain ⟨efs, he0, hchanges⟩ := pyGet_ok hC
  obtain ⟨r1, hE1⟩ := pyIndex0_ok_obj (he0 ▸ hI)
  obtain ⟨cfs, hc0, hvalue⟩ := pyGet_ok hV
  obtain ⟨r2, hC1⟩ := pyIndex0_ok_obj (hc0 ▸ hIC)
  obtain ⟨vfs, hval2, hmsgs⟩ := pyGet_ok hM
  obtain ⟨mfs, hmsg, htype⟩ := pyGet_ok hTy
  obtain ⟨r3, hM1⟩ := pyIndex0_ok_obj (hmsg ▸ hIM)
  have htext : message_type = .str "text" := isTextType_true hTx
  have hgetd : (lookupJ mfs "type").getD .null = .str "text" :=
    htype.symm.trans htext
  have hlook : lookupJ mfs "type" = some (.str "text") := by
    rcases hl : lookupJ mfs "type" with _ | t
    · rw [hl] at hgetd; exact absurd hgetd (by simp)
    · rw [hl] at hgetd; simp at hgetd; rw [hgetd]
  have h1 : (lookupJ fs "entry").getD (.arr []) = .arr (.obj efs :: r1) :=
    hentry.symm.trans hE1
  have h2 : (lookupJ efs "changes").getD (.arr []) = .arr (.obj cfs :: r2) :=
    hchanges.symm.trans hC1
  have h3 : (lookupJ cfs "value").getD (.obj []) = .obj vfs :=
    hvalue.symm.trans hval2
  have h4 : (lookupJ vfs "messages").getD (.arr []) = .arr (.obj mfs :: r3) :=
    hmsgs.symm.trans hM1
  subst hdata
  have hmsgAt : msgAt (.obj fs) = some (.obj mfs) := by
    simp only [msgAt, h1, h2, h3, h4]
  rcases h with h | h
  · exact absurd (hmsgAt.symm.trans h) (by simp)
  · exact h (.obj mfs) hmsgAt (by simpa [jTypeOf] using hlook)

/-- C6: when the payload carries no message at the fixed path
`entry[0].changes[0].value.messages[0]`, or the first message's type is
not `"text"`, the handler invokes neither the Completion Client nor the
Outbound Sender and still responds 200/"OK". -/
theorem c6_no_text_message_no_calls (c : Ctx) (co so : HttpResult) (data : Json)
    (h : msgAt data = none ∨
      ∀ m, msgAt data = some m → jTypeOf m ≠ some (.str "text")) :
    webhook_post c co so (some data) = .ok (("OK", 200), []) := by
  rcases processPayload_no_text c co so data h with hp | hp <;>
    simp [webhook_post, hp]

theorem c6_witness :
    webhook_post ctxAll .exn .exn (some (.obj [])) = .ok (("OK", 200), []) ∧
    webhook_post ctxAll .exn .exn
        (some (textMsgPayload
          (.obj [("from", .str "7"), ("type", .str "image")]))) =
      .ok (("OK", 200), []) :=
  ⟨c6_no_text_message_no_calls ctxAll .exn .exn (.obj []) (Or.inl rfl),
   c6_no_text_message_no_calls ctxAll .exn .exn
     (textMsgPayload (.obj [("from", .str "7"), ("type", .str "image")]))
     (Or.inr (fun m hm => by
       have hm2 : some (Json.obj [("from", Json.str "7"),
           ("type", Json.str "image")]) = some m := hm
       cases hm2
       intro hcon
       have hcon2 : some (Json.str "image") = some (Json.str "text") := hcon
       injection hcon2 with h2
       injection h2 with h3
       exact absurd h3 (by decide)))⟩
